import Mathlib

/-!
A shallow embedding of `src/collectd_systemd.py` (the `SystemD` collectd
plugin class).  The dbus daemon and the collectd host are the environment:
they are modelled by an oracle (`World`) that decides, per connection
generation, whether `dbus.SystemBus()` succeeds, whether
`manager.GetUnit`/`bus.get_object` resolve a unit name, and what a
`unit.Get(..., state)` property read returns.  The mutable fields of the
`SystemD` instance are the state (`SD`), threaded explicitly; observable
actions (read attempts, reinitialisations, warnings, gauge dispatches)
are recorded in an event trace.  Uncaught Python exceptions are modelled
by the `Outcome.exn` result; `dbus.exceptions.DBusException`s caught by
the source's `try/except` blocks never surface as `exn`.
-/

namespace CollectdSystemd

/-- One observable action of the plugin: a `get_service_state` call
(`read`), a `manager.GetUnit` resolution attempt inside `get_unit`
(`resolveAttempt`), a `collectd.warning` (`warn`), an `init_dbus` call
(`reinit`), or one `self._dispatch('gauge', service, typeInstance, value, ...)`
emission (`gauge`). -/
inductive Event where
  | read (unit state : String)
  | resolveAttempt (unit : String)
  | warn (unit : String)
  | reinit
  | gauge (service typeInstance : String) (value : Nat)
deriving DecidableEq, Repr

/-- A resolved dbus unit handle, as cached in `self.units`: it is only
valid for the bus/manager pair (`gen`) under which it was resolved. -/
structure Handle where
  gen : Nat
  unit : String
deriving DecidableEq, Repr

/-- The dbus/collectd environment.  `connectOk k` decides whether the
`k`-th call to `dbus.SystemBus()`/`bus.get_object` in `init_dbus`
succeeds (a failure raises an uncaught `DBusException`).  `resolveOk g n`
decides whether `manager.GetUnit(n)` (plus the wrapping `get_object`)
succeeds under connection generation `g`.  `getProp g n st` is the result
of `unit.Get('org.freedesktop.systemd1.Unit', st)` on the handle for
unit `n` of generation `g`: `none` models a raised `DBusException`. -/
structure World where
  connectOk : Nat → Bool
  resolveOk : Nat → String → Bool
  getProp : Nat → String → String → Option String

/-- The mutable fields of the `SystemD` instance.  `gen` stands for the
identity of the current `self.bus`/`self.manager` pair (a connection
generation counter); `connAttempts` counts `init_dbus` calls, so that
`World.connectOk` can make an individual connection attempt fail.
`interval` keeps the raw configured string (`float(vals[0])` is not
interpreted numerically; no claim concerns the interval's value). -/
structure SD where
  services : List String
  service_states : List String
  verbose_logging : Bool
  interval : String
  units : List (String × Handle)
  gen : Nat
  connAttempts : Nat
deriving DecidableEq, Repr

/-- The state built by `SystemD.__init__`. -/
def initSD : SD :=
  { services := [], service_states := [], verbose_logging := false,
    interval := "60.0", units := [], gen := 0, connAttempts := 0 }

/-- `name in self.units` / `self.units[name]` on the cache dictionary. -/
def lookupUnit (units : List (String × Handle)) (name : String) : Option Handle :=
  match units with
  | [] => none
  | (k, u) :: rest => if k = name then some u else lookupUnit rest name

/-- `init_dbus`: clears the unit cache, then rebuilds `self.bus` and
`self.manager`.  The clearing happens before the connection attempt, so
the cache is empty even when `dbus.SystemBus()`/`get_object` raises; in
that case (`false` in the first component) the exception propagates to
the caller and the old generation survives. -/
def init_dbus (w : World) (s : SD) : Bool × SD × List Event :=
  let s1 : SD := { s with units := [], connAttempts := s.connAttempts + 1 }
  if w.connectOk s.connAttempts then
    (true, { s1 with gen := s1.gen + 1 }, [Event.reinit])
  else
    (false, s1, [Event.reinit])

/-- `get_unit`: returns the cached handle when present; otherwise tries
`manager.GetUnit` (wrapped as a properties interface), caching a
successful resolution; a `DBusException` is caught, logged as a warning
and turned into `None` (nothing is cached). -/
def get_unit (w : World) (s : SD) (name : String) : Option Handle × SD × List Event :=
  match lookupUnit s.units name with
  | some u => (some u, s, [])
  | none =>
    if w.resolveOk s.gen name then
      (some ⟨s.gen, name⟩,
       { s with units := s.units ++ [(name, ⟨s.gen, name⟩)] },
       [Event.resolveAttempt name])
    else
      (none, s, [Event.resolveAttempt name, Event.warn name])

/-- `get_service_state`: obtains a handle via `get_unit`; without a
handle the value is `'broken'`; otherwise `unit.Get(...)` is issued and
a caught `DBusException` again yields `'broken'`. -/
def get_service_state (w : World) (s : SD) (name state : String) : String × SD × List Event :=
  let r := get_unit w s name
  match r.1 with
  | none => ("broken", r.2.1, Event.read name state :: r.2.2)
  | some u =>
    match w.getProp u.gen u.unit state with
    | some v => (v, r.2.1, Event.read name state :: r.2.2)
    | none => ("broken", r.2.1, Event.read name state :: r.2.2)

/-- The three state axes monitored by the plugin. -/
inductive Axis where
  | active
  | sub
  | load
deriving DecidableEq, Repr

/-- `ACTIVE_STATE` / `SUB_STATE` / `LOAD_STATE`. -/
def stateName : Axis → String
  | Axis.active => "ActiveState"
  | Axis.sub => "SubState"
  | Axis.load => "LoadState"

/-- `ALL_STATES`. -/
def ALL_STATES : List String := ["ActiveState", "SubState", "LoadState"]

/-- The `type_instance` prefix used by the `_dispatch_*` function of an
axis (`active_state`, `substate`, `load_state`). -/
def axisLabel : Axis → String
  | Axis.active => "active_state"
  | Axis.sub => "substate"
  | Axis.load => "load_state"

/-- The enumerants an axis's `_dispatch_*` function emits gauges for, in
source order. -/
def axisEnums : Axis → List String
  | Axis.active => ["active", "inactive", "activating", "deactivating", "reloading", "failed"]
  | Axis.sub => ["running", "exited", "failed", "dead"]
  | Axis.load => ["loaded", "not-found", "error", "masked"]

/-- The block of `self._dispatch('gauge', name, '<label>.<enumerant>',
int(enumerant == v), v)` calls an axis's `_dispatch_*` function performs
for final state value `v`: one boolean gauge per enumerant. -/
def axisGauges (a : Axis) (name v : String) : List Event :=
  (axisEnums a).map (fun e => Event.gauge name (axisLabel a ++ "." ++ e) (if e = v then 1 else 0))

/-- Result of a code path that may let a Python exception escape. -/
inductive Outcome where
  | ok
  | exn
deriving DecidableEq, Repr

/-- Common body of `_dispatch_active_states` / `_dispatch_substates` /
`_dispatch_load_states` (they differ only in the axis): read the state
of `name + '.service'`; on `'broken'` reinitialise dbus and read once
more; then emit the gauge block for the final value.  When the
reinitialisation's connection attempt raises, the exception escapes
before any retry or emission. -/
def dispatch_axis (w : World) (s : SD) (a : Axis) (name : String) : Outcome × SD × List Event :=
  let full := name ++ ".service"
  let r1 := get_service_state w s full (stateName a)
  if r1.1 = "broken" then
    let ri := init_dbus w r1.2.1
    if ri.1 then
      let r2 := get_service_state w ri.2.1 full (stateName a)
      (Outcome.ok, r2.2.1, r1.2.2 ++ ri.2.2 ++ r2.2.2 ++ axisGauges a name r2.1)
    else
      (Outcome.exn, ri.2.1, r1.2.2 ++ ri.2.2)
  else
    (Outcome.ok, r1.2.1, r1.2.2 ++ axisGauges a name r1.1)

/-- `_dispatch_active_states`. -/
def dispatch_active_states (w : World) (s : SD) (name : String) : Outcome × SD × List Event :=
  dispatch_axis w s Axis.active name

/-- `_dispatch_substates`. -/
def dispatch_substates (w : World) (s : SD) (name : String) : Outcome × SD × List Event :=
  dispatch_axis w s Axis.sub name

/-- `_dispatch_load_states`. -/
def dispatch_load_states (w : World) (s : SD) (name : String) : Outcome × SD × List Event :=
  dispatch_axis w s Axis.load name

/-- Sequencing of two steps inside `read_callback`: the second step runs
only when the first did not raise. -/
def seqStep (r : Outcome × SD × List Event) (f : SD → Outcome × SD × List Event) :
    Outcome × SD × List Event :=
  match r.1 with
  | Outcome.exn => r
  | Outcome.ok =>
    let r2 := f r.2.1
    (r2.1, r2.2.1, r.2.2 ++ r2.2.2)

/-- One guarded dispatch inside the `read_callback` loop body:
`if self.<AXIS>_STATE in self.service_states: self._dispatch_<axis>(name)`. -/
def dispatch_if (w : World) (a : Axis) (name : String) (s : SD) : Outcome × SD × List Event :=
  if stateName a ∈ s.service_states then dispatch_axis w s a name
  else (Outcome.ok, s, [])

/-- The `read_callback` loop body for one service name: the three guarded
dispatches in declared order (Active, Sub, Load). -/
def read_service (w : World) (name : String) (s : SD) : Outcome × SD × List Event :=
  seqStep (seqStep (dispatch_if w Axis.active name s) (dispatch_if w Axis.sub name))
    (dispatch_if w Axis.load name)

/-- The `for name in self.services` loop of `read_callback`; an escaped
exception aborts the remainder of the loop. -/
def read_services (w : World) (names : List String) (s : SD) : Outcome × SD × List Event :=
  match names with
  | [] => (Outcome.ok, s, [])
  | n :: rest => seqStep (read_service w n s) (read_services w rest)

/-- `read_callback`: one poll cycle over the configured services. -/
def read_callback (w : World) (s : SD) : Outcome × SD × List Event :=
  read_services w s.services s

/-- One child node of the collectd configuration block: a key and its
(already stringified) value list. -/
structure ConfNode where
  key : String
  values : List String
deriving DecidableEq, Repr

/-- A Python exception escaping `configure_callback`: the `ValueError`
raised on an unknown key, the `IndexError` of `vals[0]` on an empty
value list, or a `DBusException` from the `init_dbus` call made before
registering the read callback. -/
inductive ConfErr where
  | unknownKey (k : String)
  | indexError
  | connectError
deriving DecidableEq, Repr

/-- `self.service_states.update(set(vals))`: set union, keeping the list
free of duplicates (only membership, emptiness and the subset test are
ever observed on `service_states`). -/
def setUpdate (xs : List String) (vals : List String) : List String :=
  match vals with
  | [] => xs
  | v :: rest => setUpdate (if v ∈ xs then xs else xs ++ [v]) rest

/-- One iteration of the `for node in conf.children` loop of
`configure_callback`.  The `Interval` value is kept as its raw string
(its numeric interpretation is irrelevant to every observed behaviour
here); an unknown key raises `ValueError`. -/
def parseNode (s : SD) (node : ConfNode) : Except ConfErr SD :=
  if node.key = "Service" then
    Except.ok { s with services := s.services ++ node.values }
  else if node.key = "ServiceStates" then
    Except.ok { s with service_states := setUpdate s.service_states node.values }
  else if node.key = "Interval" then
    match node.values with
    | [] => Except.error ConfErr.indexError
    | v :: _ => Except.ok { s with interval := v }
  else if node.key = "Verbose" then
    match node.values with
    | [] => Except.error ConfErr.indexError
    | v :: _ => Except.ok { s with verbose_logging := v.toLower = "true" }
  else
    Except.error (ConfErr.unknownKey node.key)

/-- The whole `for node in conf.children` loop; a raised exception
aborts the rest of the loop. -/
def parseNodes (s : SD) (nodes : List ConfNode) : Except ConfErr SD :=
  match nodes with
  | [] => Except.ok s
  | n :: rest =>
    match parseNode s n with
    | Except.error e => Except.error e
    | Except.ok s1 => parseNodes s1 rest

/-- `configure_callback`: parse the children, then return without
registering when no service, no state axis, or a state axis outside
`ALL_STATES` is configured; otherwise `init_dbus` (whose failure
propagates) and `collectd.register_read` (the `Bool` component records
that the read callback was registered). -/
def configure_callback (w : World) (nodes : List ConfNode) (s : SD) :
    Except ConfErr (SD × Bool) :=
  match parseNodes s nodes with
  | Except.error e => Except.error e
  | Except.ok s1 =>
    if s1.services = [] then Except.ok (s1, false)
    else if s1.service_states = [] then Except.ok (s1, false)
    else if !(s1.service_states.all (fun x => ALL_STATES.contains x)) then Except.ok (s1, false)
    else
      let ri := init_dbus w s1
      if ri.1 then Except.ok (ri.2.1, true) else Except.error ConfErr.connectError

/-- Whether a `configure_callback` result registered the read callback. -/
def registersRead : Except ConfErr (SD × Bool) → Bool
  | Except.ok (_, b) => b
  | Except.error _ => false

/-- Selectors on the event trace. -/
def isReadEv : Event → Bool
  | Event.read _ _ => true
  | _ => false

def isReinitEv : Event → Bool
  | Event.reinit => true
  | _ => false

def isGaugeEv : Event → Bool
  | Event.gauge _ _ _ => true
  | _ => false

/-- The gauge events of a trace. -/
def gaugesOf (evs : List Event) : List Event :=
  evs.filter isGaugeEv

/-- The numeric values of the gauge events of a trace, in emission
order. -/
def gaugeNats (evs : List Event) : List Nat :=
  evs.filterMap fun e =>
    match e with
    | Event.gauge _ _ v => some v
    | _ => none

/-- The read events of a trace that concern unit `n`. -/
def readsForUnit (n : String) (evs : List Event) : List Event :=
  evs.filter fun e =>
    match e with
    | Event.read u _ => u = n
    | _ => false

/-- The gauge events of a trace that concern service `n`. -/
def gaugesForService (n : String) (evs : List Event) : List Event :=
  evs.filter fun e =>
    match e with
    | Event.gauge u _ _ => u = n
    | _ => false

/-- Every cached handle belongs to the current connection generation. -/
def cacheGenOk (s : SD) : Bool :=
  s.units.all (fun p => p.2.gen == s.gen)

/-- The four configuration keys `configure_callback` recognises. -/
def knownKey (k : String) : Bool :=
  k == "Service" || k == "ServiceStates" || k == "Interval" || k == "Verbose"

/-! ### Concrete environments and states used to witness the claims -/

/-- A daemon whose bus connects but never resolves a unit and never
answers a property read. -/
def wConnOkReadFail : World :=
  ⟨fun _ => true, fun _ _ => false, fun _ _ _ => none⟩

/-- A daemon that resolves units but whose property reads fail under
generation 0 and answer `active` under every later generation. -/
def wGenRecover : World :=
  ⟨fun _ => true, fun _ _ => true, fun g _ _ => if g = 0 then none else some "active"⟩

/-- A fully healthy daemon: every property read answers `active`. -/
def wAllOk : World :=
  ⟨fun _ => true, fun _ _ => true, fun _ _ _ => some "active"⟩

/-- A daemon that is completely down: even `dbus.SystemBus()` raises. -/
def wAllDown : World :=
  ⟨fun _ => false, fun _ _ => false, fun _ _ _ => none⟩

/-- A configured plugin state: two services, the `ActiveState` axis. -/
def sPoll : SD :=
  { initSD with services := ["a", "b"], service_states := ["ActiveState"] }

/-- A configured plugin state monitoring all three axes. -/
def sAllAxes : SD :=
  { initSD with services := ["a", "b"],
                service_states := ["ActiveState", "SubState", "LoadState"] }

/-- A state whose unit cache already holds a handle for `x.service`. -/
def sCached : SD :=
  { initSD with units := [("x.service", ⟨0, "x.service"⟩)] }

/-- A configuration block with a service and a bogus state axis. -/
def nodesBogus : List ConfNode :=
  [⟨"Service", ["web"]⟩, ⟨"ServiceStates", ["bogus"]⟩]

/-- The state `nodesBogus` parses to. -/
def sBogus : SD :=
  { initSD with services := ["web"], service_states := ["bogus"] }

/-- A configuration block with an unrecognised key. -/
def nodesUnknown : List ConfNode :=
  [⟨"Service", ["web"]⟩, ⟨"Bogus", ["1"]⟩]

/-! ### Helper lemmas -/

lemma get_unit_preserve (w : World) (s : SD) (n : String) :
    (get_unit w s n).2.1.gen = s.gen
    ∧ (get_unit w s n).2.1.connAttempts = s.connAttempts
    ∧ (get_unit w s n).2.1.services = s.services
    ∧ (get_unit w s n).2.1.service_states = s.service_states := by
  unfold get_unit
  split
  · exact ⟨rfl, rfl, rfl, rfl⟩
  · split <;> exact ⟨rfl, rfl, rfl, rfl⟩

lemma get_service_state_state (w : World) (s : SD) (n st : String) :
    (get_service_state w s n st).2.1 = (get_unit w s n).2.1 := by
  unfold get_service_state
  dsimp only
  split
  · rfl
  · split <;> rfl

lemma get_service_state_events (w : World) (s : SD) (n st : String) :
    (get_service_state w s n st).2.2 = Event.read n st :: (get_unit w s n).2.2 := by
  unfold get_service_state
  dsimp only
  split
  · rfl
  · split <;> rfl

lemma get_unit_events (w : World) (s : SD) (n : String) :
    (get_unit w s n).2.2 = []
    ∨ (get_unit w s n).2.2 = [Event.resolveAttempt n]
    ∨ (get_unit w s n).2.2 = [Event.resolveAttempt n, Event.warn n] := by
  unfold get_unit
  split
  · exact Or.inl rfl
  · split
    · exact Or.inr (Or.inl rfl)
    · exact Or.inr (Or.inr rfl)

lemma get_unit_filter (w : World) (s : SD) (n : String) :
    (get_unit w s n).2.2.filter isReadEv = []
    ∧ (get_unit w s n).2.2.filter isReinitEv = []
    ∧ (get_unit w s n).2.2.filter isGaugeEv = [] := by
  rcases get_unit_events w s n with h | h | h <;> rw [h] <;> exact ⟨rfl, rfl, rfl⟩

lemma gss_filter_read (w : World) (s : SD) (n st : String) :
    (get_service_state w s n st).2.2.filter isReadEv = [Event.read n st] := by
  rw [get_service_state_events, List.filter_cons]
  simp [isReadEv, (get_unit_filter w s n).1]

lemma gss_filter_reinit (w : World) (s : SD) (n st : String) :
    (get_service_state w s n st).2.2.filter isReinitEv = [] := by
  rw [get_service_state_events, List.filter_cons]
  simp [isReinitEv, (get_unit_filter w s n).2.1]

lemma gss_filter_gauge (w : World) (s : SD) (n st : String) :
    (get_service_state w s n st).2.2.filter isGaugeEv = [] := by
  rw [get_service_state_events, List.filter_cons]
  simp [isGaugeEv, (get_unit_filter w s n).2.2]

lemma init_dbus_events (w : World) (s : SD) : (init_dbus w s).2.2 = [Event.reinit] := by
  unfold init_dbus
  split <;> rfl

lemma init_dbus_units (w : World) (s : SD) : (init_dbus w s).2.1.units = [] := by
  unfold init_dbus
  split <;> rfl

lemma init_dbus_ok (w : World) (s : SD) : (init_dbus w s).1 = w.connectOk s.connAttempts := by
  unfold init_dbus
  by_cases h : w.connectOk s.connAttempts <;> simp [h]

lemma init_dbus_preserve (w : World) (s : SD) :
    (init_dbus w s).2.1.services = s.services
    ∧ (init_dbus w s).2.1.service_states = s.service_states := by
  unfold init_dbus
  split <;> exact ⟨rfl, rfl⟩

lemma axisGauges_filter_read (a : Axis) (n v : String) :
    (axisGauges a n v).filter isReadEv = [] := by
  rw [List.filter_eq_nil_iff]
  intro e he
  rcases List.mem_map.mp he with ⟨x, _, rfl⟩
  simp [isReadEv]

lemma axisGauges_filter_reinit (a : Axis) (n v : String) :
    (axisGauges a n v).filter isReinitEv = [] := by
  rw [List.filter_eq_nil_iff]
  intro e he
  rcases List.mem_map.mp he with ⟨x, _, rfl⟩
  simp [isReinitEv]

lemma gaugesOf_axisGauges (a : Axis) (n v : String) :
    gaugesOf (axisGauges a n v) = axisGauges a n v := by
  rw [gaugesOf, List.filter_eq_self]
  intro e he
  rcases List.mem_map.mp he with ⟨x, _, rfl⟩
  simp [isGaugeEv]

lemma indicator_sum_zero (l : List String) (v : String) (h : v ∉ l) :
    (l.map (fun e => if e = v then (1 : Nat) else 0)).sum = 0 := by
  induction l with
  | nil => rfl
  | cons e rest ih =>
    have hev : e ≠ v := fun hev => h (hev ▸ List.mem_cons_self e rest)
    have hvr : v ∉ rest := fun hvr => h (List.mem_cons_of_mem e hvr)
    simp [hev, ih hvr]

lemma indicator_sum_le_one (l : List String) (v : String) (hnd : l.Nodup) :
    (l.map (fun e => if e = v then (1 : Nat) else 0)).sum ≤ 1 := by
  induction l with
  | nil => simp
  | cons e rest ih =>
    rcases List.nodup_cons.mp hnd with ⟨he, hrest⟩
    by_cases hev : e = v
    · subst hev
      simp [indicator_sum_zero rest e he]
    · simp [hev, ih hrest]

lemma indicator_count_one (l : List String) (v : String) (hnd : l.Nodup) (hv : v ∈ l) :
    (l.map (fun e => if e = v then (1 : Nat) else 0)).count 1 = 1 := by
  induction l with
  | nil => cases hv
  | cons e rest ih =>
    rcases List.nodup_cons.mp hnd with ⟨he, hrest⟩
    by_cases hev : e = v
    · subst hev
      have hz : (rest.map (fun x => if x = e then (1 : Nat) else 0)).count 1 = 0 := by
        rw [List.count_eq_zero]
        intro hmem
        rcases List.mem_map.mp hmem with ⟨x, hx, hxe⟩
        by_cases hxe' : x = e
        · exact he (hxe' ▸ hx)
        · simp [hxe'] at hxe
      simp [List.count_cons, hz]
    · have hv' : v ∈ rest := by
        rcases List.mem_cons.mp hv with h | h
        · exact absurd h.symm hev
        · exact h
      simp [List.count_cons, hev, ih hrest hv']

lemma indicator_mem_zero_one (l : List String) (v : String) :
    ∀ x ∈ l.map (fun e => if e = v then (1 : Nat) else 0), x = 0 ∨ x = 1 := by
  intro x hx
  rcases List.mem_map.mp hx with ⟨e, _, rfl⟩
  by_cases hev : e = v <;> simp [hev]

lemma indicator_all_zero (l : List String) (v : String) (h : v ∉ l) :
    ∀ x ∈ l.map (fun e => if e = v then (1 : Nat) else 0), x = 0 := by
  intro x hx
  rcases List.mem_map.mp hx with ⟨e, he, rfl⟩
  have hev : e ≠ v := fun hev => h (hev ▸ he)
  simp [hev]

/-- The gauge values of an axis's dispatch block are the indicator of
the final value over the axis's enumerant list. -/
lemma gaugeNats_axisGauges (a : Axis) (name v : String) :
    gaugeNats (axisGauges a name v) =
      (axisEnums a).map (fun e => if e = v then (1 : Nat) else 0) := by
  cases a <;> simp [gaugeNats, axisGauges, axisEnums, axisLabel, List.filterMap_cons]

lemma axisEnums_nodup (a : Axis) : (axisEnums a).Nodup := by
  cases a <;> decide

lemma broken_not_mem_axisEnums (a : Axis) : "broken" ∉ axisEnums a := by
  cases a <;> decide

/-! ### Claims -/

/-- C1: for every service and axis, among the boolean gauges the axis's
dispatch block emits for a final state value, the sum is at most 1;
when the final value is `broken` every gauge is 0; and when the final
value is one of the axis's enumerants (the spec's data model for
non-`broken` state values), exactly one gauge is 1 and, every gauge
being 0 or 1, the rest are 0. -/
theorem C1_gauge_exclusivity (a : Axis) (name v : String) :
    (gaugeNats (axisGauges a name v)).sum ≤ 1
    ∧ (v = "broken" → ∀ x ∈ gaugeNats (axisGauges a name v), x = 0)
    ∧ (v ∈ axisEnums a →
        (gaugeNats (axisGauges a name v)).count 1 = 1
        ∧ ∀ x ∈ gaugeNats (axisGauges a name v), x = 0 ∨ x = 1) := by
  rw [gaugeNats_axisGauges]
  refine ⟨indicator_sum_le_one _ _ (axisEnums_nodup a), ?_, ?_⟩
  · intro hb
    subst hb
    exact indicator_all_zero _ _ (broken_not_mem_axisEnums a)
  · intro hv
    exact ⟨indicator_count_one _ _ (axisEnums_nodup a) hv, indicator_mem_zero_one _ _⟩

/-- Witness for C1 at concrete inputs: axis `ActiveState`, service
`web`, value `active` (exactly one gauge equals 1) and value `broken`
(all gauges 0). -/
theorem C1_gauge_exclusivity_witness :
    (gaugeNats (axisGauges Axis.active "web" "active")).count 1 = 1
    ∧ ∀ x ∈ gaugeNats (axisGauges Axis.active "web" "broken"), x = 0 :=
  ⟨((C1_gauge_exclusivity Axis.active "web" "active").2.2 (by decide)).1,
   (C1_gauge_exclusivity Axis.active "web" "broken").2.1 rfl⟩

/-- Unfolding of `dispatch_axis` on the broken-then-successful-reinit
path. -/
lemma dispatch_axis_broken_retry (w : World) (s : SD) (a : Axis) (name : String)
    (h1 : (get_service_state w s (name ++ ".service") (stateName a)).1 = "broken")
    (hok : (init_dbus w (get_service_state w s (name ++ ".service") (stateName a)).2.1).1 = true) :
    dispatch_axis w s a name =
      (Outcome.ok,
       (get_service_state w
         (init_dbus w (get_service_state w s (name ++ ".service") (stateName a)).2.1).2.1
         (name ++ ".service") (stateName a)).2.1,
       (get_service_state w s (name ++ ".service") (stateName a)).2.2
         ++ (init_dbus w (get_service_state w s (name ++ ".service") (stateName a)).2.1).2.2
         ++ (get_service_state w
              (init_dbus w (get_service_state w s (name ++ ".service") (stateName a)).2.1).2.1
              (name ++ ".service") (stateName a)).2.2
         ++ axisGauges a name
              (get_service_state w
                (init_dbus w (get_service_state w s (name ++ ".service") (stateName a)).2.1).2.1
                (name ++ ".service") (stateName a)).1) := by
  unfold dispatch_axis
  dsimp only
  rw [h1, hok]
  simp

/-- The connection attempt made by the reinitialisation inside
`dispatch_axis` succeeds exactly when `connectOk` holds of the original
state's attempt counter (a read never touches that counter). -/
lemma dispatch_reinit_ok (w : World) (s : SD) (n st : String)
    (h2 : w.connectOk s.connAttempts = true) :
    (init_dbus w (get_service_state w s n st).2.1).1 = true := by
  rw [init_dbus_ok, get_service_state_state]
  rw [(get_unit_preserve w s n).2.1]
  exact h2

/-- C2: when the first read of a unit's axis yields `broken` and the
retried read (after the one reinitialisation, whose connection attempt
succeeds) yields `broken` again, the dispatch performs exactly two read
attempts and exactly one reinitialisation, no exception escapes, and
the values it emits are the all-zero gauge block of `broken`. -/
theorem C2_fail_fail_retry (w : World) (s : SD) (a : Axis) (name : String)
    (h1 : (get_service_state w s (name ++ ".service") (stateName a)).1 = "broken")
    (h2 : w.connectOk s.connAttempts = true)
    (h3 : (get_service_state w
        (init_dbus w (get_service_state w s (name ++ ".service") (stateName a)).2.1).2.1
        (name ++ ".service") (stateName a)).1 = "broken") :
    (dispatch_axis w s a name).1 = Outcome.ok
    ∧ ((dispatch_axis w s a name).2.2.filter isReadEv).length = 2
    ∧ ((dispatch_axis w s a name).2.2.filter isReinitEv).length = 1
    ∧ gaugesOf (dispatch_axis w s a name).2.2 = axisGauges a name "broken" := by
  have hok := dispatch_reinit_ok w s (name ++ ".service") (stateName a) h2
  rw [dispatch_axis_broken_retry w s a name h1 hok]
  refine ⟨rfl, ?_, ?_, ?_⟩
  · simp [List.filter_append, gss_filter_read, init_dbus_events,
      axisGauges_filter_read, isReadEv]
  · simp [List.filter_append, gss_filter_reinit, init_dbus_events,
      axisGauges_filter_reinit, isReinitEv]
  · rw [h3]
    simp only [gaugesOf, List.filter_append, gss_filter_gauge, init_dbus_events]
    simp only [List.filter_cons, List.filter_nil, isGaugeEv, List.nil_append]
    have := gaugesOf_axisGauges a name "broken"
    rw [gaugesOf] at this
    simp [this]

/-- Witness for C2: a daemon whose bus connects but never resolves any
unit, polled for `web`'s `ActiveState` from the freshly configured
state. -/
theorem C2_fail_fail_retry_witness :
    (dispatch_axis wConnOkReadFail sPoll Axis.active "web").1 = Outcome.ok
    ∧ ((dispatch_axis wConnOkReadFail sPoll Axis.active "web").2.2.filter isReadEv).length = 2
    ∧ ((dispatch_axis wConnOkReadFail sPoll Axis.active "web").2.2.filter isReinitEv).length = 1
    ∧ gaugesOf (dispatch_axis wConnOkReadFail sPoll Axis.active "web").2.2
        = axisGauges Axis.active "web" "broken" :=
  C2_fail_fail_retry wConnOkReadFail sPoll Axis.active "web" rfl rfl rfl

/-- C3: when the first read of a unit's axis yields `broken`, the
reinitialisation's connection attempt succeeds and the retried read
yields `v`, the dispatch emits the gauge block of the successful value
`v`, and the unit-handle cache is empty in the state in which the second
read attempt runs (it was invalidated between the attempts). -/
theorem C3_fail_success_retry (w : World) (s : SD) (a : Axis) (name v : String)
    (h1 : (get_service_state w s (name ++ ".service") (stateName a)).1 = "broken")
    (h2 : w.connectOk s.connAttempts = true)
    (h3 : (get_service_state w
        (init_dbus w (get_service_state w s (name ++ ".service") (stateName a)).2.1).2.1
        (name ++ ".service") (stateName a)).1 = v) :
    (dispatch_axis w s a name).1 = Outcome.ok
    ∧ gaugesOf (dispatch_axis w s a name).2.2 = axisGauges a name v
    ∧ (init_dbus w (get_service_state w s (name ++ ".service") (stateName a)).2.1).2.1.units
        = [] := by
  have hok := dispatch_reinit_ok w s (name ++ ".service") (stateName a) h2
  rw [dispatch_axis_broken_retry w s a name h1 hok]
  refine ⟨rfl, ?_, init_dbus_units _ _⟩
  rw [h3]
  simp only [gaugesOf, List.filter_append, gss_filter_gauge, init_dbus_events]
  simp only [List.filter_cons, List.filter_nil, isGaugeEv, List.nil_append]
  have := gaugesOf_axisGauges a name v
  rw [gaugesOf] at this
  simp [this]

/-- Witness for C3: property reads fail under generation 0 and answer
`active` under generation 1, so the retried read succeeds with `active`
and the cache was emptied in between. -/
theorem C3_fail_success_retry_witness :
    (dispatch_axis wGenRecover sPoll Axis.active "web").1 = Outcome.ok
    ∧ gaugesOf (dispatch_axis wGenRecover sPoll Axis.active "web").2.2
        = axisGauges Axis.active "web" "active"
    ∧ (init_dbus wGenRecover
        (get_service_state wGenRecover sPoll ("web" ++ ".service")
          (stateName Axis.active)).2.1).2.1.units = [] :=
  C3_fail_success_retry wGenRecover sPoll Axis.active "web" "active" rfl rfl rfl

/-- C4: `get_service_state` is a total function of the environment and
state (no exception escapes it: the `DBusException`s of `GetUnit` and
`Get` are caught): it answers `broken` when no handle could be obtained,
`broken` when the property read on the obtained handle errors, and the
fetched value otherwise. -/
theorem C4_read_total (w : World) (s : SD) (name state : String) :
    ((get_unit w s name).1 = none → (get_service_state w s name state).1 = "broken")
    ∧ (∀ u, (get_unit w s name).1 = some u →
        (w.getProp u.gen u.unit state = none →
          (get_service_state w s name state).1 = "broken")
        ∧ (∀ v, w.getProp u.gen u.unit state = some v →
          (get_service_state w s name state).1 = v)) := by
  have hc : (get_service_state w s name state).1
      = ((get_unit w s name).1.elim "broken"
          (fun u => (w.getProp u.gen u.unit state).getD "broken")) := by
    unfold get_service_state
    dsimp only
    cases (get_unit w s name).1 with
    | none => rfl
    | some u =>
      dsimp only [Option.elim]
      cases w.getProp u.gen u.unit state <;> rfl
  refine ⟨?_, ?_⟩
  · intro h
    rw [h] at hc
    simpa using hc
  · intro u hu
    rw [hu] at hc
    dsimp only [Option.elim] at hc
    refine ⟨?_, ?_⟩
    · intro hp
      rw [hp] at hc
      simpa using hc
    · intro v hv
      rw [hv] at hc
      simpa using hc

/-- Witness for C4 at concrete inputs: resolution failure gives
`broken`, a successful read gives the fetched value, a failing property
read on a resolved handle gives `broken`. -/
theorem C4_read_total_witness :
    (get_service_state wConnOkReadFail sPoll "x.service" "ActiveState").1 = "broken"
    ∧ (get_service_state wAllOk sPoll "x.service" "ActiveState").1 = "active"
    ∧ (get_service_state wGenRecover sPoll "x.service" "ActiveState").1 = "broken" :=
  ⟨(C4_read_total wConnOkReadFail sPoll "x.service" "ActiveState").1 rfl,
   ((C4_read_total wAllOk sPoll "x.service" "ActiveState").2 ⟨0, "x.service"⟩ rfl).2
     "active" rfl,
   ((C4_read_total wGenRecover sPoll "x.service" "ActiveState").2 ⟨0, "x.service"⟩ rfl).1 rfl⟩

/-- C7: `get_unit` returns the cached handle unchanged (no resolution
attempt, no state change) when one is present; otherwise it resolves and
caches a successful result; and a failed resolution returns no handle
(`None`, not an exception) and leaves the state unchanged. -/
theorem C7_get_unit_cache (w : World) (s : SD) (n : String) :
    (∀ u, lookupUnit s.units n = some u → get_unit w s n = (some u, s, []))
    ∧ (lookupUnit s.units n = none → w.resolveOk s.gen n = true →
        get_unit w s n = (some ⟨s.gen, n⟩,
          { s with units := s.units ++ [(n, ⟨s.gen, n⟩)] }, [Event.resolveAttempt n]))
    ∧ (lookupUnit s.units n = none → w.resolveOk s.gen n = false →
        (get_unit w s n).1 = none ∧ (get_unit w s n).2.1 = s) := by
  refine ⟨?_, ?_, ?_⟩
  · intro u hu
    unfold get_unit
    rw [hu]
  · intro hn hr
    unfold get_unit
    rw [hn]
    simp [hr]
  · intro hn hr
    unfold get_unit
    rw [hn]
    simp [hr]

/-- Witness for C7: a cache hit, a successful resolution that caches,
and a failed resolution that changes nothing. -/
theorem C7_get_unit_cache_witness :
    get_unit wAllOk sCached "x.service" = (some ⟨0, "x.service"⟩, sCached, [])
    ∧ get_unit wAllOk initSD "y.service" = (some ⟨0, "y.service"⟩,
        { initSD with units := [("y.service", ⟨0, "y.service"⟩)] },
        [Event.resolveAttempt "y.service"])
    ∧ (get_unit wConnOkReadFail initSD "y.service").1 = none
    ∧ (get_unit wConnOkReadFail initSD "y.service").2.1 = initSD :=
  ⟨(C7_get_unit_cache wAllOk sCached "x.service").1 ⟨0, "x.service"⟩ rfl,
   (C7_get_unit_cache wAllOk initSD "y.service").2.1 rfl rfl,
   ((C7_get_unit_cache wConnOkReadFail initSD "y.service").2.2 rfl rfl).1,
   ((C7_get_unit_cache wConnOkReadFail initSD "y.service").2.2 rfl rfl).2⟩

/-- `lookupUnit` only answers handles stored in the cache. -/
lemma lookupUnit_mem (units : List (String × Handle)) (n : String) (u : Handle)
    (h : lookupUnit units n = some u) : (n, u) ∈ units := by
  induction units with
  | nil => cases h
  | cons p rest ih =>
    rcases p with ⟨k, u'⟩
    rw [lookupUnit] at h
    by_cases hk : k = n
    · rw [if_pos hk] at h
      injection h with h'
      subst hk
      subst h'
      exact List.mem_cons_self _ _
    · rw [if_neg hk] at h
      exact List.mem_cons_of_mem _ (ih h)

/-- C9: every call to `init_dbus` — the connection attempt succeeding or
raising — leaves the unit-handle cache empty (the cache is cleared before
the connection is rebuilt); and `get_unit` both returns only handles of
the current connection generation and keeps the cache
generation-consistent, so no handle resolved under a previous generation
is ever returned after a reinitialisation. -/
theorem C9_no_stale_handles (w : World) (s s2 : SD) (n : String) (u : Handle)
    (hc : cacheGenOk s2 = true) (hu : (get_unit w s2 n).1 = some u) :
    (init_dbus w s).2.1.units = []
    ∧ u.gen = s2.gen
    ∧ cacheGenOk (get_unit w s2 n).2.1 = true := by
  refine ⟨init_dbus_units w s, ?_⟩
  unfold get_unit at hu ⊢
  cases hl : lookupUnit s2.units n with
  | some u0 =>
    rw [hl] at hu
    injection hu with hu'
    subst hu'
    constructor
    · have hmem := lookupUnit_mem s2.units n _ hl
      have := List.all_eq_true.mp hc _ hmem
      simpa using this
    · exact hc
  | none =>
    rw [hl] at hu
    by_cases hr : w.resolveOk s2.gen n
    · rw [if_pos hr] at hu
      injection hu with hu'
      constructor
      · rw [← hu']
      · rw [if_pos hr]
        rw [cacheGenOk] at hc ⊢
        rw [List.all_append]
        simp only [hc]
        simp
    · rw [if_neg hr] at hu
      cases hu

/-- Witness for C9: a generation-consistent cached state; the cached
handle is returned with the current generation and `init_dbus` empties
the cache. -/
theorem C9_no_stale_handles_witness :
    (init_dbus wAllOk sCached).2.1.units = []
    ∧ (⟨0, "x.service"⟩ : Handle).gen = sCached.gen
    ∧ cacheGenOk (get_unit wAllOk sCached "x.service").2.1 = true :=
  C9_no_stale_handles wAllOk sCached sCached "x.service" ⟨0, "x.service"⟩ rfl rfl

/-- C10: a failed resolution is not cached: `get_unit` then leaves the
state (in particular `units`) unchanged and returns `None`, so a later
call for the same name under the same generation re-attempts resolution
and can succeed (here: against a daemon that meanwhile recovered)
without any reinitialisation. -/
theorem C10_failure_not_cached (w w2 : World) (s : SD) (n : String)
    (hl : lookupUnit s.units n = none) (hr : w.resolveOk s.gen n = false)
    (hr2 : w2.resolveOk s.gen n = true) :
    get_unit w s n = (none, s, [Event.resolveAttempt n, Event.warn n])
    ∧ (get_unit w2 (get_unit w s n).2.1 n).1 = some ⟨s.gen, n⟩ := by
  have h1 : get_unit w s n = (none, s, [Event.resolveAttempt n, Event.warn n]) := by
    unfold get_unit
    rw [hl]
    simp [hr]
  refine ⟨h1, ?_⟩
  rw [h1]
  unfold get_unit
  rw [hl]
  simp [hr2]

/-- Witness for C10: resolution of `web.service` fails without caching,
then succeeds on retry under the same generation. -/
theorem C10_failure_not_cached_witness :
    get_unit wConnOkReadFail initSD "web.service"
      = (none, initSD, [Event.resolveAttempt "web.service", Event.warn "web.service"])
    ∧ (get_unit wAllOk (get_unit wConnOkReadFail initSD "web.service").2.1 "web.service").1
      = some ⟨0, "web.service"⟩ :=
  C10_failure_not_cached wConnOkReadFail wAllOk initSD "web.service" rfl rfl rfl

/-- C6: when the parsed configuration has no services, no state axes, or
a state-axis set that is not a subset of `ALL_STATES` (e.g. it contains
`bogus`), `configure_callback` returns normally without registering the
periodic read callback: polling never starts. -/
theorem C6_invalid_config_no_polling (w : World) (nodes : List ConfNode) (s0 s1 : SD)
    (hp : parseNodes s0 nodes = Except.ok s1)
    (h : s1.services = [] ∨ s1.service_states = []
        ∨ ∃ x ∈ s1.service_states, x ∉ ALL_STATES) :
    configure_callback w nodes s0 = Except.ok (s1, false) := by
  unfold configure_callback
  rw [hp]
  dsimp only
  by_cases h1 : s1.services = []
  · simp [h1]
  · by_cases h2 : s1.service_states = []
    · simp [h1, h2]
    · have h3 : ∃ x ∈ s1.service_states, x ∉ ALL_STATES := by
        rcases h with h | h | h
        · exact absurd h h1
        · exact absurd h h2
        · exact h
      have hall : (s1.service_states.all fun x => ALL_STATES.contains x) = false := by
        rcases h3 with ⟨x, hx, hnx⟩
        rw [List.all_eq_false]
        refine ⟨x, hx, ?_⟩
        simpa using hnx
      rw [if_neg h1, if_neg h2, hall]
      rfl

/-- Witness for C6: a block configuring the service `web` and the bogus
state axis `bogus` is parsed but polling is not registered. -/
theorem C6_invalid_config_no_polling_witness :
    configure_callback wAllOk nodesBogus initSD = Except.ok (sBogus, false) :=
  C6_invalid_config_no_polling wAllOk nodesBogus initSD sBogus rfl
    (Or.inr (Or.inr ⟨"bogus", by decide, by decide⟩))

/-- A configuration block containing a node with an unrecognised key
never parses: the loop raises at or before that node. -/
lemma parseNodes_unknown_error (nodes : List ConfNode) :
    ∀ s : SD, (∃ n ∈ nodes, knownKey n.key = false) →
    ∃ e, parseNodes s nodes = Except.error e := by
  induction nodes with
  | nil =>
    intro s h
    rcases h with ⟨n, hn, _⟩
    cases hn
  | cons nd rest ih =>
    intro s h
    rw [parseNodes]
    cases hpn : parseNode s nd with
    | error e => exact ⟨e, rfl⟩
    | ok s1 =>
      have hk : knownKey nd.key = true := by
        by_contra hk'
        have hk'' : knownKey nd.key = false := by
          simpa using hk'
        rw [knownKey] at hk''
        simp only [Bool.or_eq_false_iff, beq_eq_false_iff_ne, ne_eq] at hk''
        rcases hk'' with ⟨⟨⟨hk1, hk2⟩, hk3⟩, hk4⟩
        rw [parseNode, if_neg hk1, if_neg hk2, if_neg hk3, if_neg hk4] at hpn
        cases hpn
      rcases h with ⟨n, hn, hkn⟩
      rcases List.mem_cons.mp hn with rfl | hn'
      · rw [hk] at hkn
        cases hkn
      · exact ih s1 ⟨n, hn', hkn⟩

/-- C8: a configuration block containing a key other than `Service`,
`ServiceStates`, `Interval` or `Verbose` makes `configure_callback`
raise an error, and the periodic read callback is never registered. -/
theorem C8_unknown_key_fatal (w : World) (nodes : List ConfNode) (s0 : SD)
    (h : ∃ n ∈ nodes, knownKey n.key = false) :
    (∃ e, configure_callback w nodes s0 = Except.error e)
    ∧ registersRead (configure_callback w nodes s0) = false := by
  rcases parseNodes_unknown_error nodes s0 h with ⟨e, he⟩
  have hcfg : configure_callback w nodes s0 = Except.error e := by
    unfold configure_callback
    rw [he]
  refine ⟨⟨e, hcfg⟩, ?_⟩
  rw [hcfg]
  rfl

/-- Witness for C8: a block with the unknown key `Bogus` fails fatally
and registers nothing. -/
theorem C8_unknown_key_fatal_witness :
    (∃ e, configure_callback wAllOk nodesUnknown initSD = Except.error e)
    ∧ registersRead (configure_callback wAllOk nodesUnknown initSD) = false :=
  C8_unknown_key_fatal wAllOk nodesUnknown initSD
    ⟨⟨"Bogus", ["1"]⟩, by decide, by decide⟩

/-- A read never changes the configured services or state axes. -/
lemma gss_preserve (w : World) (s : SD) (n st : String) :
    (get_service_state w s n st).2.1.services = s.services
    ∧ (get_service_state w s n st).2.1.service_states = s.service_states := by
  rw [get_service_state_state]
  exact ⟨(get_unit_preserve w s n).2.2.1, (get_unit_preserve w s n).2.2.2⟩

/-- A dispatch never changes the configured services or state axes. -/
lemma dispatch_axis_preserve (w : World) (s : SD) (a : Axis) (n : String) :
    (dispatch_axis w s a n).2.1.services = s.services
    ∧ (dispatch_axis w s a n).2.1.service_states = s.service_states := by
  unfold dispatch_axis
  dsimp only
  by_cases hb : (get_service_state w s (n ++ ".service") (stateName a)).1 = "broken"
  · rw [if_pos hb]
    by_cases hi : (init_dbus w (get_service_state w s (n ++ ".service") (stateName a)).2.1).1 = true
    · rw [if_pos hi]
      dsimp only
      constructor
      · rw [(gss_preserve w _ _ _).1, (init_dbus_preserve w _).1, (gss_preserve w s _ _).1]
      · rw [(gss_preserve w _ _ _).2, (init_dbus_preserve w _).2, (gss_preserve w s _ _).2]
    · rw [if_neg hi]
      dsimp only
      constructor
      · rw [(init_dbus_preserve w _).1, (gss_preserve w s _ _).1]
      · rw [(init_dbus_preserve w _).2, (gss_preserve w s _ _).2]
  · rw [if_neg hb]
    dsimp only
    exact ⟨(gss_preserve w s _ _).1, (gss_preserve w s _ _).2⟩

/-- When every connection attempt succeeds, a dispatch never lets an
exception escape and its trace ends with the gauge block of some final
value. -/
lemma dispatch_axis_ok (w : World) (s : SD) (a : Axis) (n : String)
    (hc : ∀ k, w.connectOk k = true) :
    (dispatch_axis w s a n).1 = Outcome.ok
    ∧ ∃ v pre, (dispatch_axis w s a n).2.2 = pre ++ axisGauges a n v := by
  unfold dispatch_axis
  dsimp only
  by_cases hb : (get_service_state w s (n ++ ".service") (stateName a)).1 = "broken"
  · rw [if_pos hb]
    have hi : (init_dbus w (get_service_state w s (n ++ ".service") (stateName a)).2.1).1 = true := by
      rw [init_dbus_ok]
      exact hc _
    rw [if_pos hi]
    refine ⟨rfl,
      (get_service_state w
        (init_dbus w (get_service_state w s (n ++ ".service") (stateName a)).2.1).2.1
        (n ++ ".service") (stateName a)).1,
      (get_service_state w s (n ++ ".service") (stateName a)).2.2
        ++ (init_dbus w (get_service_state w s (n ++ ".service") (stateName a)).2.1).2.2
        ++ (get_service_state w
            (init_dbus w (get_service_state w s (n ++ ".service") (stateName a)).2.1).2.1
            (n ++ ".service") (stateName a)).2.2, ?_⟩
    simp [List.append_assoc]
  · rw [if_neg hb]
    exact ⟨rfl, (get_service_state w s (n ++ ".service") (stateName a)).1,
      (get_service_state w s (n ++ ".service") (stateName a)).2.2, rfl⟩

/-- `dispatch_if` under global connection success: no escaped exception,
configuration preserved; when the axis is configured the gauge block of
some final value is a sublist of its trace. -/
lemma dispatch_if_ok (w : World) (a : Axis) (n : String) (s : SD)
    (hc : ∀ k, w.connectOk k = true) :
    (dispatch_if w a n s).1 = Outcome.ok
    ∧ (dispatch_if w a n s).2.1.services = s.services
    ∧ (dispatch_if w a n s).2.1.service_states = s.service_states
    ∧ (stateName a ∈ s.service_states →
        ∃ v, List.Sublist (axisGauges a n v) (dispatch_if w a n s).2.2) := by
  unfold dispatch_if
  by_cases hm : stateName a ∈ s.service_states
  · rw [if_pos hm]
    rcases dispatch_axis_ok w s a n hc with ⟨ho, v, pre, hev⟩
    refine ⟨ho, (dispatch_axis_preserve w s a n).1, (dispatch_axis_preserve w s a n).2, ?_⟩
    intro _
    refine ⟨v, ?_⟩
    rw [hev]
    exact List.sublist_append_right pre (axisGauges a n v)
  · rw [if_neg hm]
    exact ⟨rfl, rfl, rfl, fun hm' => absurd hm' hm⟩

/-- Unfolding of `seqStep` when the first step did not raise. -/
lemma seqStep_ok (r : Outcome × SD × List Event) (f : SD → Outcome × SD × List Event)
    (h : r.1 = Outcome.ok) :
    seqStep r f = ((f r.2.1).1, (f r.2.1).2.1, r.2.2 ++ (f r.2.1).2.2) := by
  unfold seqStep
  rw [h]

/-- One loop iteration of `read_callback` under global connection
success: no escaped exception, configuration preserved, and each
configured axis's gauge block (for some final value) appears in the
trace. -/
lemma read_service_ok (w : World) (n : String) (s : SD)
    (hc : ∀ k, w.connectOk k = true) :
    (read_service w n s).1 = Outcome.ok
    ∧ (read_service w n s).2.1.services = s.services
    ∧ (read_service w n s).2.1.service_states = s.service_states
    ∧ ∀ a : Axis, stateName a ∈ s.service_states →
        ∃ v, List.Sublist (axisGauges a n v) (read_service w n s).2.2 := by
  rcases dispatch_if_ok w Axis.active n s hc with ⟨o1, sv1, ss1, g1⟩
  rcases dispatch_if_ok w Axis.sub n (dispatch_if w Axis.active n s).2.1 hc with
    ⟨o2, sv2, ss2, g2⟩
  rcases dispatch_if_ok w Axis.load n
      (dispatch_if w Axis.sub n (dispatch_if w Axis.active n s).2.1).2.1 hc with
    ⟨o3, sv3, ss3, g3⟩
  have hread : read_service w n s
      = ((dispatch_if w Axis.load n
            (dispatch_if w Axis.sub n (dispatch_if w Axis.active n s).2.1).2.1).1,
         (dispatch_if w Axis.load n
            (dispatch_if w Axis.sub n (dispatch_if w Axis.active n s).2.1).2.1).2.1,
         ((dispatch_if w Axis.active n s).2.2
            ++ (dispatch_if w Axis.sub n (dispatch_if w Axis.active n s).2.1).2.2)
            ++ (dispatch_if w Axis.load n
                 (dispatch_if w Axis.sub n (dispatch_if w Axis.active n s).2.1).2.1).2.2) := by
    unfold read_service
    rw [seqStep_ok _ _ o1]
    rw [seqStep_ok
      ((dispatch_if w Axis.sub n (dispatch_if w Axis.active n s).2.1).1,
       (dispatch_if w Axis.sub n (dispatch_if w Axis.active n s).2.1).2.1,
       (dispatch_if w Axis.active n s).2.2
         ++ (dispatch_if w Axis.sub n (dispatch_if w Axis.active n s).2.1).2.2)
      (dispatch_if w Axis.load n) o2]
  refine ⟨?_, ?_, ?_, ?_⟩
  · rw [hread]
    exact o3
  · rw [hread]
    exact sv3.trans (sv2.trans sv1)
  · rw [hread]
    exact ss3.trans (ss2.trans ss1)
  · intro a ha
    cases a with
    | active =>
      rcases g1 ha with ⟨v, hsub⟩
      refine ⟨v, ?_⟩
      rw [hread]
      exact (hsub.trans (List.sublist_append_left _ _)).trans (List.sublist_append_left _ _)
    | sub =>
      have ha' : stateName Axis.sub ∈ (dispatch_if w Axis.active n s).2.1.service_states := by
        rw [ss1]
        exact ha
      rcases g2 ha' with ⟨v, hsub⟩
      refine ⟨v, ?_⟩
      rw [hread]
      exact (hsub.trans (List.sublist_append_right _ _)).trans (List.sublist_append_left _ _)
    | load =>
      have ha' : stateName Axis.load ∈
          (dispatch_if w Axis.sub n (dispatch_if w Axis.active n s).2.1).2.1.service_states := by
        rw [ss2, ss1]
        exact ha
      rcases g3 ha' with ⟨v, hsub⟩
      refine ⟨v, ?_⟩
      rw [hread]
      exact hsub.trans (List.sublist_append_right _ _)

/-- The whole `read_callback` loop under global connection success. -/
lemma read_services_ok (w : World) (names : List String) :
    ∀ s : SD, (∀ k, w.connectOk k = true) →
    (read_services w names s).1 = Outcome.ok
    ∧ (read_services w names s).2.1.service_states = s.service_states
    ∧ ∀ n ∈ names, ∀ a : Axis, stateName a ∈ s.service_states →
        ∃ v, List.Sublist (axisGauges a n v) (read_services w names s).2.2 := by
  induction names with
  | nil =>
    intro s hc
    refine ⟨rfl, rfl, ?_⟩
    intro n hn
    cases hn
  | cons n rest ih =>
    intro s hc
    rcases read_service_ok w n s hc with ⟨o1, sv1, ss1, g1⟩
    rcases ih (read_service w n s).2.1 hc with ⟨o2, ss2, g2⟩
    have hrw : read_services w (n :: rest) s
        = ((read_services w rest (read_service w n s).2.1).1,
           (read_services w rest (read_service w n s).2.1).2.1,
           (read_service w n s).2.2
             ++ (read_services w rest (read_service w n s).2.1).2.2) := by
      rw [read_services]
      exact seqStep_ok _ _ o1
    refine ⟨?_, ?_, ?_⟩
    · rw [hrw]
      exact o2
    · rw [hrw]
      exact ss2.trans ss1
    · intro m hm a ha
      rcases List.mem_cons.mp hm with rfl | hm'
      · rcases g1 a ha with ⟨v, hsub⟩
        refine ⟨v, ?_⟩
        rw [hrw]
        exact hsub.trans (List.sublist_append_left _ _)
      · have ha' : stateName a ∈ (read_service w n s).2.1.service_states := by
          rw [ss1]
          exact ha
        rcases g2 m hm' a ha' with ⟨v, hsub⟩
        refine ⟨v, ?_⟩
        rw [hrw]
        exact hsub.trans (List.sublist_append_right _ _)

/-- Counterexample to C5 as stated: with the daemon fully down, reading
service `a` fails (a resolution failure), the recovery path's
`dbus.SystemBus()` call raises, the exception escapes `read_callback`
(the poll cycle aborts), and service `b` is neither read nor emitted. -/
theorem C5_counterexample_cycle_aborted :
    (read_callback wAllDown sPoll).1 = Outcome.exn
    ∧ readsForUnit "a.service" (read_callback wAllDown sPoll).2.2 ≠ []
    ∧ readsForUnit "b.service" (read_callback wAllDown sPoll).2.2 = []
    ∧ gaugesForService "b" (read_callback wAllDown sPoll).2.2 = [] := by
  refine ⟨rfl, ?_, rfl, rfl⟩
  decide

/-- C5 amended: `ResolutionError`s and `ReadError`s while reading one
service are absorbed into `broken` and never abort the poll cycle, but a
`ConnectionError` raised by the reinitialisation inside the recovery
path escapes and aborts the cycle.  When every connection attempt
succeeds, no read failure propagates: the cycle completes and every
configured (service, axis) pair has its full gauge block emitted. -/
theorem C5_amended_no_read_failure_aborts (w : World) (s : SD)
    (hc : ∀ k, w.connectOk k = true) :
    (read_callback w s).1 = Outcome.ok
    ∧ ∀ n ∈ s.services, ∀ a : Axis, stateName a ∈ s.service_states →
        ∃ v, List.Sublist (axisGauges a n v) (read_callback w s).2.2 := by
  unfold read_callback
  have h := read_services_ok w s.services s hc
  exact ⟨h.1, h.2.2⟩

/-- Witness for the amended C5: a healthy connection, two services, all
three axes — the cycle completes and emits every gauge block. -/
theorem C5_amended_no_read_failure_aborts_witness :
    (read_callback wAllOk sAllAxes).1 = Outcome.ok
    ∧ ∀ n ∈ sAllAxes.services, ∀ a : Axis, stateName a ∈ sAllAxes.service_states →
        ∃ v, List.Sublist (axisGauges a n v) (read_callback wAllOk sAllAxes).2.2 :=
  C5_amended_no_read_failure_aborts wAllOk sAllAxes (fun _ => rfl)

end CollectdSystemd
